import Mathlib

/-!
Shallow embedding of `src/mpgno/metrics.py` (repository `sprmsv/rigno`).

Arrays are modelled as real-valued functions over `Fin`-indexed axes:
a rank-5 array of shape `[batch, time, grid_0, grid_1, channel]` is
`Fin b → Fin t → Fin g0 → Fin g1 → Fin c → ℝ`, and a rank-4 array of shape
`[batch, time, grid, channel]` is `Fin b → Fin t → Fin g → Fin c → ℝ`.
`jnp.sum(x, axis=(1,2,3))` is the triple `Finset` sum over axes 1, 2, 3;
`jnp.mean` divides the total sum by the number of summed elements;
`jnp.linalg.norm(v, axis=-1)` is the square root of the sum of squares
along the last axis.

Real division in Lean is total (`x / 0 = 0`), while JAX's floating-point
division by zero produces a non-finite value (`nan` or `inf`).  Where a
claim is about that degenerate behaviour, a second "float model" of the
function (suffix `_fl`) is used, returning `Option ℝ` with `none` standing
for a non-finite result; each `_fl` definition agrees with the plain one
(wrapped in `some`) whenever every denominator it produces is nonzero.
-/

noncomputable section

open Finset

/-- Rank-5 array of shape `[batch, time, grid_0, grid_1, channel]`. -/
abbrev Tensor5 (b t g0 g1 c : ℕ) : Type :=
  Fin b → Fin t → Fin g0 → Fin g1 → Fin c → ℝ

/-- Rank-4 array of shape `[batch, time, grid, channel]`. -/
abbrev Tensor4 (b t g c : ℕ) : Type :=
  Fin b → Fin t → Fin g → Fin c → ℝ

variable {b t g0 g1 c g : ℕ}

/-- Embedding of `mse_error` (metrics.py lines 20-30):
`jnp.mean(jnp.power(predictions - labels, 2), axis=(1, 2, 3))` on rank-5
inputs; the mean over axes 1, 2, 3 is the sum divided by `t * g0 * g1`.
Output shape `[batch, channel]`. -/
def mse_error (predictions labels : Tensor5 b t g0 g1 c) :
    Fin b → Fin c → ℝ := fun bi ci =>
  (∑ ti, ∑ xi, ∑ yi, (predictions bi ti xi yi ci - labels bi ti xi yi ci) ^ 2) /
    ((t : ℝ) * (g0 : ℝ) * (g1 : ℝ))

/-- Embedding of `rel_l1_error` (metrics.py lines 32-44) on its documented rank-5 inputs:
`sum_err_per_var_abs = jnp.sum(jnp.abs(predictions - labels), axis=(1,2,3))`,
`sum_lab_per_var_abs = jnp.sum(jnp.abs(labels), axis=(1,2,3))`,
result `sum_err_per_var_abs / sum_lab_per_var_abs`
(the local name `rel_l2_err_per_var` in the source notwithstanding).
Output shape `[batch, channel]`. -/
def rel_l1_error (predictions labels : Tensor5 b t g0 g1 c) :
    Fin b → Fin c → ℝ := fun bi ci =>
  let sum_err_per_var_abs :=
    ∑ ti, ∑ xi, ∑ yi, |predictions bi ti xi yi ci - labels bi ti xi yi ci|
  let sum_lab_per_var_abs := ∑ ti, ∑ xi, ∑ yi, |labels bi ti xi yi ci|
  sum_err_per_var_abs / sum_lab_per_var_abs

/-- Embedding of `rel_l2_error` (metrics.py lines 46-58) on its documented rank-5 inputs:
`sum_err_per_var_squared = jnp.sum(jnp.power(predictions - labels, 2), axis=(1,2,3))`,
`sum_lab_per_var_squared = jnp.sum(jnp.power(labels, 2), axis=(1,2,3))`,
result `jnp.sqrt(sum_err_per_var_squared / sum_lab_per_var_squared)`.
Output shape `[batch, channel]`. -/
def rel_l2_error (predictions labels : Tensor5 b t g0 g1 c) :
    Fin b → Fin c → ℝ := fun bi ci =>
  let sum_err_per_var_squared :=
    ∑ ti, ∑ xi, ∑ yi, (predictions bi ti xi yi ci - labels bi ti xi yi ci) ^ 2
  let sum_lab_per_var_squared := ∑ ti, ∑ xi, ∑ yi, (labels bi ti xi yi ci) ^ 2
  Real.sqrt (sum_err_per_var_squared / sum_lab_per_var_squared)

/-- Embedding of `mse_loss` (metrics.py lines 60-67):
`jnp.mean(jnp.power(predictions - labels, 2))` over a rank-4 input, i.e.
the sum over all entries divided by `b * t * g * c`. -/
def mse_loss (predictions labels : Tensor4 b t g c) : ℝ :=
  (∑ bi, ∑ ti, ∑ xi, ∑ ci,
      (predictions bi ti xi ci - labels bi ti xi ci) ^ 2) /
    ((b : ℝ) * (t : ℝ) * (g : ℝ) * (c : ℝ))

/-- The constant `eps = 1e-08` of `msre_loss`. -/
def eps : ℝ := 1e-8

/-- Embedding of `msre_loss` (metrics.py lines 69-77):
`jnp.mean(jnp.power((predictions - labels) / (labels + eps), 2))` with
`eps = 1e-08`, over a rank-4 input. -/
def msre_loss (predictions labels : Tensor4 b t g c) : ℝ :=
  (∑ bi, ∑ ti, ∑ xi, ∑ ci,
      ((predictions bi ti xi ci - labels bi ti xi ci) /
        (labels bi ti xi ci + eps)) ^ 2) /
    ((b : ℝ) * (t : ℝ) * (g : ℝ) * (c : ℝ))

/-- The body of `rel_l1_error` applied to the rank-4 arrays that
`rel_l1_loss` actually passes it: `jnp.sum(..., axis=(1, 2, 3))` on a
rank-4 array reduces the time, grid AND channel axes, leaving
shape `[batch]`. -/
def rel_l1_error_r4 (predictions labels : Tensor4 b t g c) :
    Fin b → ℝ := fun bi =>
  let sum_err_per_var_abs :=
    ∑ ti, ∑ xi, ∑ ci, |predictions bi ti xi ci - labels bi ti xi ci|
  let sum_lab_per_var_abs := ∑ ti, ∑ xi, ∑ ci, |labels bi ti xi ci|
  sum_err_per_var_abs / sum_lab_per_var_abs

/-- The body of `rel_l2_error` applied to the rank-4 arrays that
`rel_l2_loss` actually passes it; shape `[batch]` for the same reason as
`rel_l1_error_r4`. -/
def rel_l2_error_r4 (predictions labels : Tensor4 b t g c) :
    Fin b → ℝ := fun bi =>
  let sum_err_per_var_squared :=
    ∑ ti, ∑ xi, ∑ ci, (predictions bi ti xi ci - labels bi ti xi ci) ^ 2
  let sum_lab_per_var_squared := ∑ ti, ∑ xi, ∑ ci, (labels bi ti xi ci) ^ 2
  Real.sqrt (sum_err_per_var_squared / sum_lab_per_var_squared)

/-- Embedding of `rel_l1_loss` (metrics.py lines 79-89) on its documented rank-4 inputs:
`rel_err_per_var = rel_l1_error(predictions, labels)` has shape `[batch]`
(see `rel_l1_error_r4`), so `rel_err_agg = jnp.linalg.norm(rel_err_per_var,
axis=-1)` is the Euclidean norm over the batch axis, a 0-d scalar, and the
final `jnp.mean` of a 0-d array returns it unchanged. -/
def rel_l1_loss (predictions labels : Tensor4 b t g c) : ℝ :=
  let rel_err_per_var := rel_l1_error_r4 predictions labels
  let rel_err_agg := Real.sqrt (∑ bi, (rel_err_per_var bi) ^ 2)
  rel_err_agg

/-- Embedding of `rel_l2_loss` (metrics.py lines 91-101) on its documented rank-4 inputs;
same structure as `rel_l1_loss` with `rel_l2_error` in place of
`rel_l1_error`. -/
def rel_l2_loss (predictions labels : Tensor4 b t g c) : ℝ :=
  let rel_err_per_var := rel_l2_error_r4 predictions labels
  let rel_err_agg := Real.sqrt (∑ bi, (rel_err_per_var bi) ^ 2)
  rel_err_agg

/-- Float model of `rel_l1_error`: JAX division with a zero denominator
produces a non-finite value (`0/0 = nan`, `x/0 = ±inf`), modelled as
`none`; when the denominator is nonzero the value is the real one. -/
def rel_l1_error_fl (predictions labels : Tensor5 b t g0 g1 c) :
    Fin b → Fin c → Option ℝ := fun bi ci =>
  let sum_err_per_var_abs :=
    ∑ ti, ∑ xi, ∑ yi, |predictions bi ti xi yi ci - labels bi ti xi yi ci|
  let sum_lab_per_var_abs := ∑ ti, ∑ xi, ∑ yi, |labels bi ti xi yi ci|
  if sum_lab_per_var_abs = 0 then none
  else some (sum_err_per_var_abs / sum_lab_per_var_abs)

/-- Float model of `rel_l2_error`: `none` when the label sum of squares is
zero (JAX then yields `nan` or `inf`), the real value otherwise. -/
def rel_l2_error_fl (predictions labels : Tensor5 b t g0 g1 c) :
    Fin b → Fin c → Option ℝ := fun bi ci =>
  let sum_err_per_var_squared :=
    ∑ ti, ∑ xi, ∑ yi, (predictions bi ti xi yi ci - labels bi ti xi yi ci) ^ 2
  let sum_lab_per_var_squared := ∑ ti, ∑ xi, ∑ yi, (labels bi ti xi yi ci) ^ 2
  if sum_lab_per_var_squared = 0 then none
  else some (Real.sqrt (sum_err_per_var_squared / sum_lab_per_var_squared))

open Classical in
/-- Float model of `msre_loss`: if some element of `labels + eps` is zero
the corresponding quotient is non-finite and the final mean is non-finite
(`none`); otherwise the real value. -/
def msre_loss_fl (predictions labels : Tensor4 b t g c) : Option ℝ :=
  if ∀ bi ti xi ci, labels bi ti xi ci + eps ≠ 0 then
    some (msre_loss predictions labels)
  else none

open Classical in
/-- Float model of `rel_l1_loss`: if some batch entry of
`rel_l1_error_r4` has a zero denominator, that entry is non-finite and the
norm and mean stay non-finite (`none`); otherwise the real value. -/
def rel_l1_loss_fl (predictions labels : Tensor4 b t g c) : Option ℝ :=
  if ∀ bi, (∑ ti, ∑ xi, ∑ ci, |labels bi ti xi ci|) ≠ 0 then
    some (rel_l1_loss predictions labels)
  else none

open Classical in
/-- Float model of `rel_l2_loss`, analogous to `rel_l1_loss_fl`. -/
def rel_l2_loss_fl (predictions labels : Tensor4 b t g c) : Option ℝ :=
  if ∀ bi, (∑ ti, ∑ xi, ∑ ci, (labels bi ti xi ci) ^ 2) ≠ 0 then
    some (rel_l2_loss predictions labels)
  else none

/-- Modelled from the spec: the two-stage `rel_l1_loss` the spec describes
("compute per-variable `rel_l1_error` (reducing over time+grid, shape
`[batch, channel]`), take the Euclidean norm across the channel axis per
batch entry, then average over batch"), stated for rank-4 inputs. -/
def rel_l1_loss_spec (predictions labels : Tensor4 b t g c) : ℝ :=
  let e : Fin b → Fin c → ℝ := fun bi ci =>
    (∑ ti, ∑ xi, |predictions bi ti xi ci - labels bi ti xi ci|) /
      (∑ ti, ∑ xi, |labels bi ti xi ci|)
  (∑ bi, Real.sqrt (∑ ci, (e bi ci) ^ 2)) / (b : ℝ)

/-- Modelled from the spec: the two-stage `rel_l2_loss` the spec describes,
stated for rank-4 inputs. -/
def rel_l2_loss_spec (predictions labels : Tensor4 b t g c) : ℝ :=
  let e : Fin b → Fin c → ℝ := fun bi ci =>
    Real.sqrt
      ((∑ ti, ∑ xi, (predictions bi ti xi ci - labels bi ti xi ci) ^ 2) /
        (∑ ti, ∑ xi, (labels bi ti xi ci) ^ 2))
  (∑ bi, Real.sqrt (∑ ci, (e bi ci) ^ 2)) / (b : ℝ)

/-- Concrete rank-5 input of §8 of the spec: batch=1, time=2, grid=(1,1),
channel=1, predictions `[[1,3]]`. -/
def p8 : Tensor5 1 2 1 1 1 := fun _ ti _ _ _ => if ti = 0 then 1 else 3

/-- Concrete rank-5 labels of §8 of the spec: `[[1,1]]`. -/
def l8 : Tensor5 1 2 1 1 1 := fun _ _ _ _ _ => 1

/-- All-ones rank-5 array, batch=time=grid_0=grid_1=channel=1. -/
def ones5 : Tensor5 1 1 1 1 1 := fun _ _ _ _ _ => 1

/-- All-zeros rank-5 array, batch=time=grid_0=grid_1=channel=1. -/
def zeros5 : Tensor5 1 1 1 1 1 := fun _ _ _ _ _ => 0

/-- All-ones rank-4 array, batch=time=grid=channel=1. -/
def ones4 : Tensor4 1 1 1 1 := fun _ _ _ _ => 1

/-- Rank-4 predictions for the `rel_l1_loss` failing input: batch=2,
time=grid=channel=1, every entry 2. -/
def pBug : Tensor4 2 1 1 1 := fun _ _ _ _ => 2

/-- Rank-4 labels for the `rel_l1_loss` failing input: every entry 1. -/
def lBug : Tensor4 2 1 1 1 := fun _ _ _ _ => 1

/-- C2: on rank-5 inputs, `rel_l1_error` returns, per `(batch, channel)`,
the sum over the three middle axes of `|predictions - labels|` divided by
the sum over the same axes of `|labels|` — no squaring and no square root,
despite the internal variable name `rel_l2_err_per_var`. -/
theorem rel_l1_error_formula (predictions labels : Tensor5 b t g0 g1 c)
    (bi : Fin b) (ci : Fin c) :
    rel_l1_error predictions labels bi ci =
      (∑ ti, ∑ xi, ∑ yi, |predictions bi ti xi yi ci - labels bi ti xi yi ci|) /
        (∑ ti, ∑ xi, ∑ yi, |labels bi ti xi yi ci|) := rfl

/-- C3: on rank-5 inputs, `rel_l2_error` returns, per `(batch, channel)`,
`sqrt((∑ (pred - label)^2) / (∑ label^2))`, the sums ranging over the
time and two grid axes only. -/
theorem rel_l2_error_formula (predictions labels : Tensor5 b t g0 g1 c)
    (bi : Fin b) (ci : Fin c) :
    rel_l2_error predictions labels bi ci =
      Real.sqrt
        ((∑ ti, ∑ xi, ∑ yi,
            (predictions bi ti xi yi ci - labels bi ti xi yi ci) ^ 2) /
          (∑ ti, ∑ xi, ∑ yi, (labels bi ti xi yi ci) ^ 2)) := rfl

/-- C10: `mse_error` and `mse_loss` are symmetric in predictions and
labels, since they depend on the inputs only through `(pred - label)^2`. -/
theorem mse_symmetric (p5 l5 : Tensor5 b t g0 g1 c) (p4 l4 : Tensor4 b t g c) :
    mse_error p5 l5 = mse_error l5 p5 ∧ mse_loss p4 l4 = mse_loss l4 p4 := by
  constructor
  · funext bi ci
    unfold mse_error
    congr 1
    refine Finset.sum_congr rfl fun ti _ => ?_
    refine Finset.sum_congr rfl fun xi _ => ?_
    refine Finset.sum_congr rfl fun yi _ => ?_
    ring
  · unfold mse_loss
    congr 1
    refine Finset.sum_congr rfl fun bi _ => ?_
    refine Finset.sum_congr rfl fun ti _ => ?_
    refine Finset.sum_congr rfl fun xi _ => ?_
    refine Finset.sum_congr rfl fun ci _ => ?_
    ring

/-- C8: on the concrete input with batch=1, time=2, grid=(1,1), channel=1,
predictions `[[1,3]]` and labels `[[1,1]]`, `mse_error` is exactly `2` and
`rel_l2_error` is exactly `sqrt 2 = sqrt ((0 + 4) / (1 + 1))`. -/
theorem concrete_mse_rel_l2_values :
    mse_error p8 l8 0 0 = 2 ∧ rel_l2_error p8 l8 0 0 = Real.sqrt 2 := by
  constructor
  · simp [mse_error, p8, l8, Fin.sum_univ_two, Fin.sum_univ_one]
    norm_num
  · simp [rel_l2_error, p8, l8, Fin.sum_univ_two, Fin.sum_univ_one]
    norm_num

/-- C7: `msre_loss` is the mean over all elements of
`((predictions - labels) / (labels + eps))^2` with `eps = 1e-8`; in
particular both it and its float model return exactly `0` when
predictions and labels are all zero (the numerator is zero and every
denominator is `eps ≠ 0`). -/
theorem msre_loss_formula_and_zero (predictions labels : Tensor4 b t g c) :
    (msre_loss predictions labels =
        (∑ bi, ∑ ti, ∑ xi, ∑ ci,
            ((predictions bi ti xi ci - labels bi ti xi ci) /
              (labels bi ti xi ci + eps)) ^ 2) /
          ((b : ℝ) * (t : ℝ) * (g : ℝ) * (c : ℝ)) ∧
      eps = 1e-8) ∧
    (msre_loss (fun _ _ _ _ => (0 : ℝ)) ((fun _ _ _ _ => 0) : Tensor4 b t g c) = 0 ∧
      msre_loss_fl (fun _ _ _ _ => (0 : ℝ)) ((fun _ _ _ _ => 0) : Tensor4 b t g c)
        = some 0) := by
  have hz : msre_loss (fun _ _ _ _ => (0 : ℝ))
      ((fun _ _ _ _ => 0) : Tensor4 b t g c) = 0 := by
    simp [msre_loss]
  refine ⟨⟨rfl, rfl⟩, hz, ?_⟩
  rw [msre_loss_fl, if_pos, hz]
  intro bi ti xi ci
  norm_num [eps]

/-- C6: when predictions and labels are all zero, every per-variable label
reduction is zero and `rel_l1_error` / `rel_l2_error` perform an unguarded
`0 / 0`; in the float model the result is the non-finite value `none`,
never a finite replacement. -/
theorem rel_error_zero_den_nonfinite (predictions labels : Tensor5 b t g0 g1 c)
    (hp : ∀ bi ti xi yi ci, predictions bi ti xi yi ci = 0)
    (hl : ∀ bi ti xi yi ci, labels bi ti xi yi ci = 0)
    (bi : Fin b) (ci : Fin c) :
    rel_l1_error_fl predictions labels bi ci = none ∧
      rel_l2_error_fl predictions labels bi ci = none := by
  constructor
  · simp [rel_l1_error_fl, hl]
  · simp [rel_l2_error_fl, hl]

/-- Witness for `rel_error_zero_den_nonfinite` at the all-zero
1×1×1×1×1 arrays. -/
theorem rel_error_zero_den_nonfinite_witness :
    ((∀ bi ti xi yi ci, zeros5 bi ti xi yi ci = 0) ∧
      (∀ bi ti xi yi ci, zeros5 bi ti xi yi ci = 0)) ∧
    (rel_l1_error_fl zeros5 zeros5 0 0 = none ∧
      rel_l2_error_fl zeros5 zeros5 0 0 = none) :=
  ⟨⟨fun _ _ _ _ _ => rfl, fun _ _ _ _ _ => rfl⟩,
    rel_error_zero_den_nonfinite zeros5 zeros5
      (fun _ _ _ _ _ => rfl) (fun _ _ _ _ _ => rfl) 0 0⟩

/-- C9: applying any permutation of the batch axis to both predictions
and labels leaves `rel_l1_loss` and `rel_l2_loss` unchanged. -/
theorem rel_loss_batch_perm_invariant (σ : Equiv.Perm (Fin b))
    (predictions labels : Tensor4 b t g c) :
    rel_l1_loss (fun bi => predictions (σ bi)) (fun bi => labels (σ bi)) =
        rel_l1_loss predictions labels ∧
      rel_l2_loss (fun bi => predictions (σ bi)) (fun bi => labels (σ bi)) =
        rel_l2_loss predictions labels := by
  constructor
  · exact congrArg Real.sqrt
      (Equiv.sum_comp σ fun bi => (rel_l1_error_r4 predictions labels bi) ^ 2)
  · exact congrArg Real.sqrt
      (Equiv.sum_comp σ fun bi => (rel_l2_error_r4 predictions labels bi) ^ 2)

/-- C5: scaling both predictions and labels by the same nonzero constant
`a` leaves `rel_l1_error` and `rel_l2_error` unchanged (scale invariance)
and multiplies `mse_error` by `a ^ 2`. -/
theorem scale_invariance (a : ℝ) (ha : a ≠ 0)
    (predictions labels : Tensor5 b t g0 g1 c) :
    rel_l1_error (fun bi ti xi yi ci => a * predictions bi ti xi yi ci)
        (fun bi ti xi yi ci => a * labels bi ti xi yi ci) =
      rel_l1_error predictions labels ∧
    rel_l2_error (fun bi ti xi yi ci => a * predictions bi ti xi yi ci)
        (fun bi ti xi yi ci => a * labels bi ti xi yi ci) =
      rel_l2_error predictions labels ∧
    mse_error (fun bi ti xi yi ci => a * predictions bi ti xi yi ci)
        (fun bi ti xi yi ci => a * labels bi ti xi yi ci) =
      fun bi ci => a ^ 2 * mse_error predictions labels bi ci := by
  have hsq : ∀ bi ci,
      (∑ ti, ∑ xi, ∑ yi,
          (a * predictions bi ti xi yi ci - a * labels bi ti xi yi ci) ^ 2)
        = a ^ 2 * ∑ ti, ∑ xi, ∑ yi,
            (predictions bi ti xi yi ci - labels bi ti xi yi ci) ^ 2 := by
    intro bi ci
    rw [Finset.mul_sum]
    refine Finset.sum_congr rfl fun ti _ => ?_
    rw [Finset.mul_sum]
    refine Finset.sum_congr rfl fun xi _ => ?_
    rw [Finset.mul_sum]
    refine Finset.sum_congr rfl fun yi _ => ?_
    rw [← mul_sub, mul_pow]
  refine ⟨?_, ?_, ?_⟩
  · funext bi ci
    simp only [rel_l1_error]
    have h1 : (∑ ti, ∑ xi, ∑ yi,
        |a * predictions bi ti xi yi ci - a * labels bi ti xi yi ci|)
        = |a| * ∑ ti, ∑ xi, ∑ yi,
            |predictions bi ti xi yi ci - labels bi ti xi yi ci| := by
      rw [Finset.mul_sum]
      refine Finset.sum_congr rfl fun ti _ => ?_
      rw [Finset.mul_sum]
      refine Finset.sum_congr rfl fun xi _ => ?_
      rw [Finset.mul_sum]
      refine Finset.sum_congr rfl fun yi _ => ?_
      rw [← mul_sub, abs_mul]
    have h2 : (∑ ti, ∑ xi, ∑ yi, |a * labels bi ti xi yi ci|)
        = |a| * ∑ ti, ∑ xi, ∑ yi, |labels bi ti xi yi ci| := by
      rw [Finset.mul_sum]
      refine Finset.sum_congr rfl fun ti _ => ?_
      rw [Finset.mul_sum]
      refine Finset.sum_congr rfl fun xi _ => ?_
      rw [Finset.mul_sum]
      refine Finset.sum_congr rfl fun yi _ => ?_
      rw [abs_mul]
    rw [h1, h2, mul_div_mul_left _ _ (abs_ne_zero.mpr ha)]
  · funext bi ci
    simp only [rel_l2_error]
    have h2 : (∑ ti, ∑ xi, ∑ yi, (a * labels bi ti xi yi ci) ^ 2)
        = a ^ 2 * ∑ ti, ∑ xi, ∑ yi, (labels bi ti xi yi ci) ^ 2 := by
      rw [Finset.mul_sum]
      refine Finset.sum_congr rfl fun ti _ => ?_
      rw [Finset.mul_sum]
      refine Finset.sum_congr rfl fun xi _ => ?_
      rw [Finset.mul_sum]
      refine Finset.sum_congr rfl fun yi _ => ?_
      rw [mul_pow]
    rw [hsq bi ci, h2, mul_div_mul_left _ _ (pow_ne_zero 2 ha)]
  · funext bi ci
    simp only [mse_error]
    rw [hsq bi ci, mul_div_assoc]

/-- Witness for `scale_invariance` with `a = 2` on the all-ones arrays. -/
theorem scale_invariance_witness :
    (2 : ℝ) ≠ 0 ∧
    (rel_l1_error (fun bi ti xi yi ci => 2 * ones5 bi ti xi yi ci)
        (fun bi ti xi yi ci => 2 * ones5 bi ti xi yi ci) =
      rel_l1_error ones5 ones5 ∧
    rel_l2_error (fun bi ti xi yi ci => 2 * ones5 bi ti xi yi ci)
        (fun bi ti xi yi ci => 2 * ones5 bi ti xi yi ci) =
      rel_l2_error ones5 ones5 ∧
    mse_error (fun bi ti xi yi ci => 2 * ones5 bi ti xi yi ci)
        (fun bi ti xi yi ci => 2 * ones5 bi ti xi yi ci) =
      fun bi ci => (2 : ℝ) ^ 2 * mse_error ones5 ones5 bi ci) :=
  ⟨by norm_num, scale_invariance 2 (by norm_num) ones5 ones5⟩

/-- C4 fails at an all-zero input: with predictions = labels = `zeros5`
the label reduction is zero and the float model of `rel_l1_error` returns
the non-finite value (`none`), not zero. -/
theorem rel_l1_error_identical_zero_not_zero :
    rel_l1_error_fl zeros5 zeros5 0 0 ≠ some 0 ∧
      rel_l1_error_fl zeros5 zeros5 0 0 = none := by
  constructor
  · simp [rel_l1_error_fl, zeros5]
  · simp [rel_l1_error_fl, zeros5]

/-- C4 (amended): with predictions = labels, `mse_error` and `mse_loss`
are exactly zero; the relative metrics are exactly zero provided their
label reductions (absolute sum, or sum of squares, over the reduced axes)
are nonzero, and `msre_loss` is exactly zero provided no label element
equals `-eps`; with a zero denominator the float models give the
non-finite value instead (see `rel_l1_error_identical_zero_not_zero`). -/
theorem metrics_zero_on_identical (x5 : Tensor5 b t g0 g1 c) (x4 : Tensor4 b t g c)
    (h1 : ∀ bi ci, (∑ ti, ∑ xi, ∑ yi, |x5 bi ti xi yi ci|) ≠ 0)
    (h2 : ∀ bi ci, (∑ ti, ∑ xi, ∑ yi, (x5 bi ti xi yi ci) ^ 2) ≠ 0)
    (h3 : ∀ bi, (∑ ti, ∑ xi, ∑ ci, |x4 bi ti xi ci|) ≠ 0)
    (h4 : ∀ bi, (∑ ti, ∑ xi, ∑ ci, (x4 bi ti xi ci) ^ 2) ≠ 0)
    (h5 : ∀ bi ti xi ci, x4 bi ti xi ci + eps ≠ 0) :
    mse_error x5 x5 = (fun _ _ => 0) ∧
    (∀ bi ci, rel_l1_error_fl x5 x5 bi ci = some 0) ∧
    (∀ bi ci, rel_l2_error_fl x5 x5 bi ci = some 0) ∧
    mse_loss x4 x4 = 0 ∧
    msre_loss_fl x4 x4 = some 0 ∧
    rel_l1_loss_fl x4 x4 = some 0 ∧
    rel_l2_loss_fl x4 x4 = some 0 := by
  refine ⟨?_, ?_, ?_, ?_, ?_, ?_, ?_⟩
  · funext bi ci
    simp [mse_error]
  · intro bi ci
    simp only [rel_l1_error_fl]
    rw [if_neg (h1 bi ci)]
    simp
  · intro bi ci
    simp only [rel_l2_error_fl]
    rw [if_neg (h2 bi ci)]
    simp
  · simp [mse_loss]
  · rw [msre_loss_fl, if_pos h5]
    simp [msre_loss]
  · rw [rel_l1_loss_fl, if_pos h3]
    simp [rel_l1_loss, rel_l1_error_r4]
  · rw [rel_l2_loss_fl, if_pos h4]
    simp [rel_l2_loss, rel_l2_error_r4]

/-- Witness for `metrics_zero_on_identical` at the all-ones arrays. -/
theorem metrics_zero_on_identical_witness :
    ((∀ bi ci, (∑ ti, ∑ xi, ∑ yi, |ones5 bi ti xi yi ci|) ≠ 0) ∧
     (∀ bi ci, (∑ ti, ∑ xi, ∑ yi, (ones5 bi ti xi yi ci) ^ 2) ≠ 0) ∧
     (∀ bi, (∑ ti, ∑ xi, ∑ ci, |ones4 bi ti xi ci|) ≠ 0) ∧
     (∀ bi, (∑ ti, ∑ xi, ∑ ci, (ones4 bi ti xi ci) ^ 2) ≠ 0) ∧
     (∀ bi ti xi ci, ones4 bi ti xi ci + eps ≠ 0)) ∧
    (mse_error ones5 ones5 = (fun _ _ => 0) ∧
     (∀ bi ci, rel_l1_error_fl ones5 ones5 bi ci = some 0) ∧
     (∀ bi ci, rel_l2_error_fl ones5 ones5 bi ci = some 0) ∧
     mse_loss ones4 ones4 = 0 ∧
     msre_loss_fl ones4 ones4 = some 0 ∧
     rel_l1_loss_fl ones4 ones4 = some 0 ∧
     rel_l2_loss_fl ones4 ones4 = some 0) :=
  ⟨⟨by intro bi ci; simp [ones5],
    by intro bi ci; simp [ones5],
    by intro bi; simp [ones4],
    by intro bi; simp [ones4],
    by intro bi ti xi ci; norm_num [ones4, eps]⟩,
   metrics_zero_on_identical ones5 ones4
    (by intro bi ci; simp [ones5])
    (by intro bi ci; simp [ones5])
    (by intro bi; simp [ones4])
    (by intro bi; simp [ones4])
    (by intro bi ti xi ci; norm_num [ones4, eps])⟩

/-- C1: at the rank-4 failing input with batch=2, time=grid=channel=1,
predictions ≡ 2 and labels ≡ 1, the code's `rel_l1_loss` and `rel_l2_loss`
evaluate to `sqrt 2` — the Euclidean norm over the *batch* axis, because
the `axis=(1,2,3)` reduction inside `rel_l1_error`/`rel_l2_error` has
already collapsed the channel axis of a rank-4 array — while the two-stage
composition the spec describes (per-(batch, channel) relative error, norm
across the channel axis, mean over batch) evaluates to `1`; the two
disagree. -/
theorem rel_loss_rank4_divergence :
    rel_l1_loss pBug lBug = Real.sqrt 2 ∧
    rel_l2_loss pBug lBug = Real.sqrt 2 ∧
    rel_l1_loss_spec pBug lBug = 1 ∧
    rel_l2_loss_spec pBug lBug = 1 ∧
    rel_l1_loss pBug lBug ≠ rel_l1_loss_spec pBug lBug ∧
    rel_l2_loss pBug lBug ≠ rel_l2_loss_spec pBug lBug := by
  have hs2 : Real.sqrt 2 ≠ 1 := fun h => by
    have h2 := Real.sqrt_eq_one.mp h
    norm_num at h2
  have e1 : rel_l1_loss pBug lBug = Real.sqrt 2 := by
    simp [rel_l1_loss, rel_l1_error_r4, pBug, lBug, Fin.sum_univ_two]
    norm_num
  have e2 : rel_l2_loss pBug lBug = Real.sqrt 2 := by
    simp [rel_l2_loss, rel_l2_error_r4, pBug, lBug, Fin.sum_univ_two]
    norm_num
  have e3 : rel_l1_loss_spec pBug lBug = 1 := by
    simp [rel_l1_loss_spec, pBug, lBug, Fin.sum_univ_two]
    norm_num
  have e4 : rel_l2_loss_spec pBug lBug = 1 := by
    simp [rel_l2_loss_spec, pBug, lBug, Fin.sum_univ_two]
    norm_num
  refine ⟨e1, e2, e3, e4, ?_, ?_⟩
  · rw [e1, e3]
    exact hs2
  · rw [e2, e4]
    exact hs2
